import Mathlib

/-!
Shallow embedding of the relayer repository's dataworker entry point
(`runDataworker` in the dataworker index file) together with the
`ScrollWethBridge` bridge adapter and the `RelayerConfig` environment loader.

The dataworker loop interacts with external collaborators (hub pool client,
spoke pool clients, multicaller, redis).  Those collaborators are modelled as
opaque handles and environment-supplied functions; the control flow of
`runDataworker` itself — the bounded lookback-widening retry loop, the
sequence of downstream calls per iteration, the balance-allocator lifetime,
the polling-loop check and the top-level catch block — is translated
faithfully from the source.  Calls the loop makes are recorded as a trace of
`Action` values, and a thrown error is modelled by `Option Nat` (the error
value), truncating the trace at the throwing call.
-/

namespace Relayer

/-- A JS object keyed by chain id with block-number values, e.g.
`bundleEndBlockMapping` and `latestInvalidBundleStartBlocks`. -/
abbrev ChainBlockMap := List (Nat × Nat)

/-- JS property access `m[chainId]`: `some` value when the key is present,
`none` (i.e. `undefined`) otherwise. -/
def lookupChain (m : ChainBlockMap) (chainId : Nat) : Option Nat :=
  (m.find? (fun p => p.1 == chainId)).map (fun p => p.2)

/-- The `fromBlocks`/`toBlocks` part of the result of
`getSpokePoolClientEventSearchConfigsForFastDataworker`. -/
structure EventSearchWindows where
  fromBlocks : ChainBlockMap
  toBlocks : ChainBlockMap
deriving DecidableEq, Repr, Inhabited

/-- One call `runDataworker`'s loop body makes to a collaborator, with the
arguments the source passes.  `clients` is the opaque handle of the spoke
pool clients object in use; `allocator` is the identity of the
`BalanceAllocator` instance (a fresh nonce per `new BalanceAllocator`). -/
inductive Action where
  | updateClients
  | resolveRound (lookbackCount : ℤ) (windows : EventSearchWindows)
      (clients : Nat) (invalidStartBlocks : ChainBlockMap)
  | validatePendingRootBundle (clients : Nat) (sendingDisputesEnabled : Bool)
      (invalidStartBlocks : ChainBlockMap)
  | proposeRootBundle (clients : Nat) (threshold : ℤ)
      (sendingProposalsEnabled : Bool) (invalidStartBlocks : ChainBlockMap)
  | executePoolRebalanceLeaves (clients allocator : Nat)
      (sendingExecutionsEnabled : Bool) (invalidStartBlocks : ChainBlockMap)
  | executeSlowRelayLeaves (clients allocator : Nat)
      (sendingExecutionsEnabled : Bool) (invalidStartBlocks : ChainBlockMap)
  | executeRelayerRefundLeaves (clients allocator : Nat)
      (sendingExecutionsEnabled : Bool) (invalidStartBlocks : ChainBlockMap)
  | executeTransactionQueue
  | checkEndPollingLoop
  | redisDisconnect
deriving DecidableEq, Repr

/-- The `DataworkerConfig` fields `runDataworker` reads.  The lookback count
and its retry multiplier are TS numbers used as bundle counts; they are
modelled as integers. -/
structure DataworkerConfig where
  dataworkerFastLookbackCount : ℤ
  dataworkerFastLookbackRetryCount : Nat
  dataworkerFastLookbackRetryMultiplier : ℤ
  disputerEnabled : Bool
  proposerEnabled : Bool
  executorEnabled : Bool
  sendingDisputesEnabled : Bool
  sendingProposalsEnabled : Bool
  sendingExecutionsEnabled : Bool
  rootBundleExecutionThreshold : ℤ
deriving Repr

/-- The external collaborators one iteration of the `for (;;)` loop talks
to.  `bundleEndBlockMapping` is the per-chain end-block map of the latest
fully executed root bundle read from the hub pool client.
`getEventSearchConfigs` abstracts
`getSpokePoolClientEventSearchConfigsForFastDataworker` as a function of the
one `customConfig` field the retry loop mutates
(`dataworkerFastLookbackCount`); `constructSpokePoolClients` abstracts
`constructSpokePoolClientsForFastDataworker` and returns an opaque handle;
`getLatestInvalidBundleStartBlocks` maps that handle to the per-chain
invalid-bundle-start-block map.  `errOf` injects a thrown error at any call
(none of the calls in the loop body is wrapped in a try/catch);
`shouldStop` is the boolean `processEndPollingLoop` resolves to. -/
structure IterationEnv where
  bundleEndBlockMapping : ChainBlockMap
  getEventSearchConfigs : ℤ → EventSearchWindows
  constructSpokePoolClients : EventSearchWindows → Nat
  getLatestInvalidBundleStartBlocks : Nat → ChainBlockMap
  errOf : Action → Option Nat
  shouldStop : Bool

/-- Initial value of `latestInvalidBundleStartBlocks` at the top of each
loop iteration: the empty object `{}` (line `let latestInvalidBundleStartBlocks = {}`). -/
def initialInvalidBundleStartBlocks : ChainBlockMap := []

/-- One pass of the retry loop body up to the insufficiency check: compute
search configs from the current (possibly widened) lookback count, construct
spoke pool clients over them, and compute the invalid bundle start blocks
from those clients. -/
structure RoundResult where
  lookbackCount : ℤ
  windows : EventSearchWindows
  clients : Nat
  invalidStartBlocks : ChainBlockMap
deriving DecidableEq, Repr

def runRound (env : IterationEnv) (lookbackCount : ℤ) : RoundResult :=
  let windows := env.getEventSearchConfigs lookbackCount
  let clients := env.constructSpokePoolClients windows
  { lookbackCount := lookbackCount
    windows := windows
    clients := clients
    invalidStartBlocks := env.getLatestInvalidBundleStartBlocks clients }

/-- The retry condition of the source:
`Object.entries(latestInvalidBundleStartBlocks).some(([chainId, invalidBundleStartBlock]) => invalidBundleStartBlock > bundleEndBlockMapping[chainId])`.
In JS a comparison against `undefined` is false, hence the `none => false`
branch. -/
def needsLookbackIncrease (invalidStartBlocks endBlockMapping : ChainBlockMap) : Bool :=
  invalidStartBlocks.any fun p =>
    match lookupChain endBlockMapping p.1 with
    | some endBlock => decide (endBlock < p.2)
    | none => false

/-- The retry loop `for (let i = 0; i <= config.dataworkerFastLookbackRetryCount; i++)`,
recorded as the list of rounds it performs.  The `Nat` argument is the number
of retries still allowed after the current round (so the loop starts with
`dataworkerFastLookbackRetryCount`).  When the insufficiency check fires and
a retry remains, `customConfig.dataworkerFastLookbackCount` is multiplied by
`config.dataworkerFastLookbackRetryMultiplier` and the loop repeats;
otherwise the loop exits (`break`, or `i` exceeding the bound). -/
def retryRounds (env : IterationEnv) (multiplier : ℤ) : ℤ → Nat → List RoundResult
  | lookbackCount, 0 => [runRound env lookbackCount]
  | lookbackCount, retriesLeft + 1 =>
    let r := runRound env lookbackCount
    if needsLookbackIncrease r.invalidStartBlocks env.bundleEndBlockMapping then
      r :: retryRounds env multiplier (lookbackCount * multiplier) retriesLeft
    else
      [r]

/-- The state the retry loop leaves behind for the rest of the iteration:
`spokePoolClients` and `latestInvalidBundleStartBlocks` as assigned by the
loop's final round. -/
def retryFinal (env : IterationEnv) (multiplier : ℤ) : ℤ → Nat → RoundResult
  | lookbackCount, 0 => runRound env lookbackCount
  | lookbackCount, retriesLeft + 1 =>
    let r := runRound env lookbackCount
    if needsLookbackIncrease r.invalidStartBlocks env.bundleEndBlockMapping then
      retryFinal env multiplier (lookbackCount * multiplier) retriesLeft
    else
      r

/-- The sequence of collaborator calls one iteration of the `for (;;)` loop
makes, in source order: `updateDataworkerClients`, the retry loop's rounds,
then `validatePendingRootBundle` (disputer enabled), `proposeRootBundle`
(proposer enabled), the three leaf executions sharing one freshly
constructed `BalanceAllocator` (executor enabled), the multicaller flush,
and finally the `processEndPollingLoop` check.  `iterIdx` is the iteration
number; it serves as the nonce identifying the iteration's
`new BalanceAllocator(...)` instance. -/
def iterationActions (cfg : DataworkerConfig) (env : IterationEnv) (iterIdx : Nat) :
    List Action :=
  let rounds := retryRounds env cfg.dataworkerFastLookbackRetryMultiplier
    cfg.dataworkerFastLookbackCount cfg.dataworkerFastLookbackRetryCount
  let final := retryFinal env cfg.dataworkerFastLookbackRetryMultiplier
    cfg.dataworkerFastLookbackCount cfg.dataworkerFastLookbackRetryCount
  Action.updateClients ::
    ((rounds.map fun r =>
        Action.resolveRound r.lookbackCount r.windows r.clients r.invalidStartBlocks)
      ++ (if cfg.disputerEnabled then
            [Action.validatePendingRootBundle final.clients
              cfg.sendingDisputesEnabled final.invalidStartBlocks]
          else [])
      ++ (if cfg.proposerEnabled then
            [Action.proposeRootBundle final.clients cfg.rootBundleExecutionThreshold
              cfg.sendingProposalsEnabled final.invalidStartBlocks]
          else [])
      ++ (if cfg.executorEnabled then
            [Action.executePoolRebalanceLeaves final.clients iterIdx
              cfg.sendingExecutionsEnabled final.invalidStartBlocks,
             Action.executeSlowRelayLeaves final.clients iterIdx
              cfg.sendingExecutionsEnabled final.invalidStartBlocks,
             Action.executeRelayerRefundLeaves final.clients iterIdx
              cfg.sendingExecutionsEnabled final.invalidStartBlocks]
          else [])
      ++ [Action.executeTransactionQueue, Action.checkEndPollingLoop])

/-- Run a sequence of awaited calls under the error injection `errOf`: the
first call that throws aborts the rest (there is no try/catch inside the
loop body), carrying its error value; earlier calls stay in the trace. -/
def runActions (errOf : Action → Option Nat) : List Action → List Action × Option Nat
  | [] => ([], none)
  | a :: rest =>
    match errOf a with
    | some e => ([a], some e)
    | none =>
      let res := runActions errOf rest
      (a :: res.1, res.2)

/-- One iteration of the `for (;;)` loop: its calls in order, truncated at
the first thrown error. -/
def runIteration (cfg : DataworkerConfig) (env : IterationEnv) (iterIdx : Nat) :
    List Action × Option Nat :=
  runActions env.errOf (iterationActions cfg env iterIdx)

/-- The `for (;;)` loop, fuel-bounded: iteration `i` runs against `envs i`;
a thrown error exits the loop immediately; otherwise the loop continues
unless `processEndPollingLoop` returned true. -/
def runLoop (cfg : DataworkerConfig) (envs : Nat → IterationEnv) :
    Nat → Nat → List Action × Option Nat
  | 0, _ => ([], none)
  | fuel + 1, i =>
    let res := runIteration cfg (envs i) i
    match res.2 with
    | some e => (res.1, some e)
    | none =>
      if (envs i).shouldStop then (res.1, none)
      else
        let rest := runLoop cfg envs fuel (i + 1)
        (res.1 ++ rest.1, rest.2)

/-- `runDataworker`'s try/catch: any error from the loop is caught, the
redis client is disconnected when one exists, and the error is rethrown. -/
def runDataworker (cfg : DataworkerConfig) (envs : Nat → IterationEnv)
    (hasRedis : Bool) (fuel : Nat) : List Action × Option Nat :=
  let res := runLoop cfg envs fuel 0
  match res.2 with
  | none => res
  | some e =>
    (res.1 ++ (if hasRedis then [Action.redisDisconnect] else []), some e)

/-- The `BalanceAllocator` nonces appearing in a trace. -/
def allocatorOf : Action → Option Nat
  | .executePoolRebalanceLeaves _ allocator _ _ => some allocator
  | .executeSlowRelayLeaves _ allocator _ _ => some allocator
  | .executeRelayerRefundLeaves _ allocator _ _ => some allocator
  | _ => none

def allocatorsUsed (acts : List Action) : List Nat :=
  acts.filterMap allocatorOf

/-! ### Concrete fixtures used by witness theorems -/

/-- An iteration environment in which the invalid start block of chain 1
(block 100) always exceeds the executed bundle's end block (block 50), so
the lookback-widening condition never converges. -/
def envW : IterationEnv where
  bundleEndBlockMapping := [(1, 50)]
  getEventSearchConfigs := fun _ => { fromBlocks := [(1, 0)], toBlocks := [(1, 100)] }
  constructSpokePoolClients := fun _ => 7
  getLatestInvalidBundleStartBlocks := fun _ => [(1, 100)]
  errOf := fun _ => none
  shouldStop := true

/-- A configuration with every role enabled, lookback count 4, two retries
and multiplier 2. -/
def cfgW : DataworkerConfig where
  dataworkerFastLookbackCount := 4
  dataworkerFastLookbackRetryCount := 2
  dataworkerFastLookbackRetryMultiplier := 2
  disputerEnabled := true
  proposerEnabled := true
  executorEnabled := true
  sendingDisputesEnabled := true
  sendingProposalsEnabled := true
  sendingExecutionsEnabled := true
  rootBundleExecutionThreshold := 1

/-- An environment whose very first collaborator call throws error 5. -/
def envErr : IterationEnv where
  bundleEndBlockMapping := [(1, 50)]
  getEventSearchConfigs := fun _ => { fromBlocks := [(1, 0)], toBlocks := [(1, 100)] }
  constructSpokePoolClients := fun _ => 7
  getLatestInvalidBundleStartBlocks := fun _ => [(1, 40)]
  errOf := fun _ => some 5
  shouldStop := false

def envsErr : Nat → IterationEnv := fun _ => envErr

/-- The first round the retry loop performs against `envW` with lookback
count 4. -/
def rW : RoundResult := runRound envW 4

/-- The round the retry loop against `envW` ends on after exhausting two
retries (lookback widened 4 → 8 → 16). -/
def finalW : RoundResult := retryFinal envW 2 4 2

/-! ### Helper lemmas about the retry loop -/

/-- Unfolding equation for the successor case of the retry loop. -/
theorem retryRounds_succ_def (env : IterationEnv) (mult lb : ℤ) (n : Nat) :
    retryRounds env mult lb (n + 1) =
      if needsLookbackIncrease (runRound env lb).invalidStartBlocks
          env.bundleEndBlockMapping
      then runRound env lb :: retryRounds env mult (lb * mult) n
      else [runRound env lb] := rfl

theorem retryRounds_ne_nil (env : IterationEnv) (mult : ℤ) (lb : ℤ) (n : Nat) :
    retryRounds env mult lb n ≠ [] := by
  cases n with
  | zero => simp [retryRounds]
  | succ n =>
    unfold retryRounds
    by_cases h : needsLookbackIncrease (runRound env lb).invalidStartBlocks
        env.bundleEndBlockMapping <;> simp [h]

theorem retryRounds_getLast?_eq (env : IterationEnv) (mult : ℤ) (lb : ℤ) (n : Nat) :
    (retryRounds env mult lb n).getLast? = some (retryFinal env mult lb n) := by
  induction n generalizing lb with
  | zero => simp [retryRounds, retryFinal]
  | succ n ih =>
    unfold retryRounds retryFinal
    by_cases h : needsLookbackIncrease (runRound env lb).invalidStartBlocks
        env.bundleEndBlockMapping
    · simp only [h, if_true]
      rcases hrec : retryRounds env mult (lb * mult) n with _ | ⟨y, ys⟩
      · exact absurd hrec (retryRounds_ne_nil env mult (lb * mult) n)
      · have := ih (lb * mult)
        rw [hrec] at this
        simpa [List.getLast?_cons_cons] using this
    · simp [h]

theorem runActions_of_no_error (errOf : Action → Option Nat) (acts : List Action) :
    (runActions errOf acts).2 = none → (runActions errOf acts).1 = acts := by
  induction acts with
  | nil => intro _; rfl
  | cons a rest ih =>
    intro h
    cases herr : errOf a with
    | some e => simp only [runActions, herr] at h; exact absurd h (by simp)
    | none =>
      simp only [runActions, herr] at h ⊢
      exact congrArg (a :: ·) (ih h)

theorem exists_pre_of_cons_append {α : Type} (x : α) (l m : List α) :
    ∃ pre, x :: (l ++ m) = pre ++ m :=
  ⟨x :: l, rfl⟩

theorem needsLookbackIncrease_match_eq (o : Option Nat) (i : Nat) :
    ((match o with
      | some endBlock => decide (endBlock < i)
      | none => false) = true) ↔ ∃ e, o = some e ∧ e < i := by
  cases o <;> simp

/-! ### Claim theorems about the retry loop -/

/-- C1: the Bundle Block Range Resolver's adaptive-retry loop terminates for
every input, performing at most `dataworkerFastLookbackRetryCount + 1` fetch
rounds (one initial round plus the configured number of retries), even when
the invalid-start-block condition never converges. -/
theorem retryRounds_length_le (env : IterationEnv) (mult lb : ℤ) (n : Nat) :
    (retryRounds env mult lb n).length ≤ n + 1 := by
  induction n generalizing lb with
  | zero => simp [retryRounds]
  | succ n ih =>
    unfold retryRounds
    by_cases h : needsLookbackIncrease (runRound env lb).invalidStartBlocks
        env.bundleEndBlockMapping
    · simp only [h, if_true, List.length_cons]
      exact Nat.succ_le_succ (ih (lb * mult))
    · simp [h]

/-- C2: in each retry round the resolver compares the freshly computed
per-chain invalid-bundle-start-blocks against the executed bundle's end
blocks; when some chain's invalid start block strictly exceeds that chain's
executed-bundle end block the lookback count is multiplied by the retry
multiplier and the fetch repeats, otherwise the loop exits immediately with
the current round's results. -/
theorem retryRounds_step (env : IterationEnv) (mult lb : ℤ) (n : Nat) :
    (retryRounds env mult lb (n + 1) =
      if needsLookbackIncrease (runRound env lb).invalidStartBlocks
          env.bundleEndBlockMapping
      then runRound env lb :: retryRounds env mult (lb * mult) n
      else [runRound env lb])
    ∧ ∀ invalidStartBlocks endBlockMapping : ChainBlockMap,
        (needsLookbackIncrease invalidStartBlocks endBlockMapping = true ↔
          ∃ p ∈ invalidStartBlocks,
            ∃ e, lookupChain endBlockMapping p.1 = some e ∧ e < p.2) := by
  constructor
  · rfl
  · intro inv eb
    simp only [needsLookbackIncrease, List.any_eq_true,
      needsLookbackIncrease_match_eq]

/-- C8: every round of the retry loop recomputes the invalid-start-block map
from scratch from the spoke pool clients freshly constructed for that
round's windows; the loop is never skipped (so the empty initial map is
always overwritten before use), and the widened lookback counts are rebuilt
from the iteration's starting configuration value: round `k` uses exactly
`lb * mult ^ k`. -/
theorem invalidStartBlocks_recomputed_each_round (env : IterationEnv)
    (mult lb : ℤ) (n : Nat) :
    retryRounds env mult lb n ≠ []
    ∧ (∀ r ∈ retryRounds env mult lb n,
        r.windows = env.getEventSearchConfigs r.lookbackCount
        ∧ r.clients = env.constructSpokePoolClients r.windows
        ∧ r.invalidStartBlocks = env.getLatestInvalidBundleStartBlocks r.clients)
    ∧ (retryRounds env mult lb n).map (fun r => r.lookbackCount)
        = (List.range (retryRounds env mult lb n).length).map
            (fun k => lb * mult ^ k) := by
  refine ⟨retryRounds_ne_nil env mult lb n, ?_, ?_⟩
  · induction n generalizing lb with
    | zero =>
      intro r hr
      simp only [retryRounds, List.mem_singleton] at hr
      subst hr
      exact ⟨rfl, rfl, rfl⟩
    | succ n ih =>
      intro r hr
      rw [retryRounds_succ_def] at hr
      by_cases h : needsLookbackIncrease (runRound env lb).invalidStartBlocks
          env.bundleEndBlockMapping
      · rw [if_pos h] at hr
        rcases List.mem_cons.mp hr with h1 | h2
        · subst h1; exact ⟨rfl, rfl, rfl⟩
        · exact ih (lb * mult) r h2
      · rw [if_neg h] at hr
        simp only [List.mem_singleton] at hr
        subst hr
        exact ⟨rfl, rfl, rfl⟩
  · induction n generalizing lb with
    | zero => simp [retryRounds, runRound, show List.range 1 = [0] from rfl]
    | succ n ih =>
      rw [retryRounds_succ_def]
      by_cases h : needsLookbackIncrease (runRound env lb).invalidStartBlocks
          env.bundleEndBlockMapping
      · rw [if_pos h]
        simp only [List.map_cons, List.length_cons, List.range_succ_eq_map,
          List.map_map]
        have hf : ((fun k => lb * mult ^ k) ∘ Nat.succ)
            = fun k => (lb * mult) * mult ^ k := by
          funext k
          simp only [Function.comp_apply, pow_succ]
          ring
        rw [hf]
        exact congrArg₂ List.cons (by simp [runRound]) (ih (lb * mult))
      · rw [if_neg h]
        simp [runRound, show List.range 1 = [0] from rfl]

/-- C3: when the retry ceiling is reached without convergence the iteration
does not fail; the per-chain invalid-start-block map produced by the last
retry round is surfaced to `validatePendingRootBundle`, `proposeRootBundle`
and all three leaf-execution calls of the same iteration. -/
theorem finalInvalidStartBlocks_surfaced_downstream (cfg : DataworkerConfig)
    (env : IterationEnv) (iterIdx : Nat) (final : RoundResult)
    (hlast : (retryRounds env cfg.dataworkerFastLookbackRetryMultiplier
        cfg.dataworkerFastLookbackCount
        cfg.dataworkerFastLookbackRetryCount).getLast? = some final)
    (_hdiv : needsLookbackIncrease final.invalidStartBlocks
        env.bundleEndBlockMapping = true)
    (hd : cfg.disputerEnabled = true) (hp : cfg.proposerEnabled = true)
    (he : cfg.executorEnabled = true) :
    Action.validatePendingRootBundle final.clients cfg.sendingDisputesEnabled
        final.invalidStartBlocks ∈ iterationActions cfg env iterIdx
    ∧ Action.proposeRootBundle final.clients cfg.rootBundleExecutionThreshold
        cfg.sendingProposalsEnabled final.invalidStartBlocks
        ∈ iterationActions cfg env iterIdx
    ∧ Action.executePoolRebalanceLeaves final.clients iterIdx
        cfg.sendingExecutionsEnabled final.invalidStartBlocks
        ∈ iterationActions cfg env iterIdx
    ∧ Action.executeSlowRelayLeaves final.clients iterIdx
        cfg.sendingExecutionsEnabled final.invalidStartBlocks
        ∈ iterationActions cfg env iterIdx
    ∧ Action.executeRelayerRefundLeaves final.clients iterIdx
        cfg.sendingExecutionsEnabled final.invalidStartBlocks
        ∈ iterationActions cfg env iterIdx := by
  have h2 := retryRounds_getLast?_eq env cfg.dataworkerFastLookbackRetryMultiplier
    cfg.dataworkerFastLookbackCount cfg.dataworkerFastLookbackRetryCount
  rw [hlast] at h2
  have hfin := Option.some.inj h2
  rw [hfin]
  simp [iterationActions, hd, hp, he]

/-- C4: every loop iteration performs its steps in the fixed order: refresh
clients, resolve block ranges (retry rounds), validate/dispute the pending
bundle, propose, execute pool-rebalance then slow-relay then relayer-refund
leaves, and flush the transaction queue; in particular slow-relay execution
precedes relayer-refund execution. -/
theorem iterationActions_fixed_order (cfg : DataworkerConfig)
    (env : IterationEnv) (iterIdx : Nat)
    (hd : cfg.disputerEnabled = true) (hp : cfg.proposerEnabled = true)
    (he : cfg.executorEnabled = true) :
    iterationActions cfg env iterIdx =
      Action.updateClients ::
        ((retryRounds env cfg.dataworkerFastLookbackRetryMultiplier
            cfg.dataworkerFastLookbackCount
            cfg.dataworkerFastLookbackRetryCount).map fun r =>
          Action.resolveRound r.lookbackCount r.windows r.clients
            r.invalidStartBlocks)
        ++ [Action.validatePendingRootBundle
              (retryFinal env cfg.dataworkerFastLookbackRetryMultiplier
                cfg.dataworkerFastLookbackCount
                cfg.dataworkerFastLookbackRetryCount).clients
              cfg.sendingDisputesEnabled
              (retryFinal env cfg.dataworkerFastLookbackRetryMultiplier
                cfg.dataworkerFastLookbackCount
                cfg.dataworkerFastLookbackRetryCount).invalidStartBlocks,
            Action.proposeRootBundle
              (retryFinal env cfg.dataworkerFastLookbackRetryMultiplier
                cfg.dataworkerFastLookbackCount
                cfg.dataworkerFastLookbackRetryCount).clients
              cfg.rootBundleExecutionThreshold cfg.sendingProposalsEnabled
              (retryFinal env cfg.dataworkerFastLookbackRetryMultiplier
                cfg.dataworkerFastLookbackCount
                cfg.dataworkerFastLookbackRetryCount).invalidStartBlocks,
            Action.executePoolRebalanceLeaves
              (retryFinal env cfg.dataworkerFastLookbackRetryMultiplier
                cfg.dataworkerFastLookbackCount
                cfg.dataworkerFastLookbackRetryCount).clients
              iterIdx cfg.sendingExecutionsEnabled
              (retryFinal env cfg.dataworkerFastLookbackRetryMultiplier
                cfg.dataworkerFastLookbackCount
                cfg.dataworkerFastLookbackRetryCount).invalidStartBlocks,
            Action.executeSlowRelayLeaves
              (retryFinal env cfg.dataworkerFastLookbackRetryMultiplier
                cfg.dataworkerFastLookbackCount
                cfg.dataworkerFastLookbackRetryCount).clients
              iterIdx cfg.sendingExecutionsEnabled
              (retryFinal env cfg.dataworkerFastLookbackRetryMultiplier
                cfg.dataworkerFastLookbackCount
                cfg.dataworkerFastLookbackRetryCount).invalidStartBlocks,
            Action.executeRelayerRefundLeaves
              (retryFinal env cfg.dataworkerFastLookbackRetryMultiplier
                cfg.dataworkerFastLookbackCount
                cfg.dataworkerFastLookbackRetryCount).clients
              iterIdx cfg.sendingExecutionsEnabled
              (retryFinal env cfg.dataworkerFastLookbackRetryMultiplier
                cfg.dataworkerFastLookbackCount
                cfg.dataworkerFastLookbackRetryCount).invalidStartBlocks,
            Action.executeTransactionQueue,
            Action.checkEndPollingLoop] := by
  simp [iterationActions, hd, hp, he]

/-- The allocator nonces in an iteration's trace: the iteration's own nonce
three times when the executor is enabled, none otherwise. -/
theorem allocatorsUsed_iterationActions (cfg : DataworkerConfig)
    (env : IterationEnv) (iterIdx : Nat) :
    allocatorsUsed (iterationActions cfg env iterIdx) =
      if cfg.executorEnabled then [iterIdx, iterIdx, iterIdx] else [] := by
  cases hd : cfg.disputerEnabled <;> cases hp : cfg.proposerEnabled <;>
    cases he : cfg.executorEnabled <;>
      simp [iterationActions, allocatorsUsed, hd, hp, he, allocatorOf,
        List.filterMap_append, List.filterMap_map, Function.comp]

/-- C5: the `BalanceAllocator` ledger is instantiated fresh in each
iteration's execution phase and never carried over: within one iteration the
three leaf-execution calls share one and the same instance (the iteration's
nonce), and distinct iterations never share an instance. -/
theorem balanceAllocator_fresh_per_iteration (cfg : DataworkerConfig)
    (env : IterationEnv) (i : Nat) (he : cfg.executorEnabled = true) :
    allocatorsUsed (iterationActions cfg env i) = [i, i, i]
    ∧ ∀ (cfg2 : DataworkerConfig) (env2 : IterationEnv) (j : Nat), i ≠ j →
        ∀ a ∈ allocatorsUsed (iterationActions cfg env i),
          a ∉ allocatorsUsed (iterationActions cfg2 env2 j) := by
  have h1 := allocatorsUsed_iterationActions cfg env i
  rw [he] at h1
  simp only [if_true] at h1
  refine ⟨h1, ?_⟩
  intro cfg2 env2 j hij a ha
  rw [h1] at ha
  have hai : a = i := by simpa using ha
  subst hai
  intro hcontra
  have h2 := allocatorsUsed_iterationActions cfg2 env2 j
  rw [h2] at hcontra
  by_cases hb : cfg2.executorEnabled = true
  · rw [hb] at hcontra
    simp only [if_true] at hcontra
    exact hij (by simpa using hcontra)
  · rw [Bool.not_eq_true] at hb
    rw [hb] at hcontra
    simp at hcontra

/-- C6: an error raised during a loop iteration is terminal: the loop stops
at the erroring iteration, and `runDataworker` propagates the error to its
caller after disconnecting the redis client when one exists. -/
theorem runDataworker_propagates_error (cfg : DataworkerConfig)
    (envs : Nat → IterationEnv) (hasRedis : Bool) (fuel i : Nat)
    (t : List Action) (e : Nat) :
    (runLoop cfg envs fuel 0 = (t, some e) →
      runDataworker cfg envs hasRedis fuel =
        (t ++ (if hasRedis then [Action.redisDisconnect] else []), some e))
    ∧ (runIteration cfg (envs i) i = (t, some e) →
        runLoop cfg envs (fuel + 1) i = (t, some e)) := by
  constructor
  · intro h
    simp [runDataworker, h]
  · intro h
    simp [runLoop, h]

/-- C7: the external should-stop signal is checked exactly once per full
iteration, as the very last call after the transaction-queue flush, never
mid-iteration; an iteration that raises no error runs its full sequence of
calls to completion. -/
theorem pollingLoop_checked_once_per_iteration (cfg : DataworkerConfig)
    (env : IterationEnv) (iterIdx : Nat) :
    (iterationActions cfg env iterIdx).count Action.checkEndPollingLoop = 1
    ∧ (∃ pre, iterationActions cfg env iterIdx
        = pre ++ [Action.executeTransactionQueue, Action.checkEndPollingLoop])
    ∧ ((runIteration cfg env iterIdx).2 = none →
        (runIteration cfg env iterIdx).1 = iterationActions cfg env iterIdx) := by
  refine ⟨?_, ?_,
    runActions_of_no_error env.errOf (iterationActions cfg env iterIdx)⟩
  · cases hd : cfg.disputerEnabled <;> cases hp : cfg.proposerEnabled <;>
      cases he : cfg.executorEnabled <;>
        simp [iterationActions, hd, hp, he, List.count_append, List.count_cons,
          List.count_eq_zero, List.mem_map]
  · simp only [iterationActions]
    exact exists_pre_of_cons_append Action.updateClients _ _

/-! ### ScrollWethBridge (src/adapter/bridges/ScrollWethBridge.ts) -/

/-- An argument of a constructed contract call: an address string, or a
number (a `BigNumber` amount or the numeric `l2Gas`). -/
inductive TxArg where
  | addr (a : String)
  | num (n : ℤ)
deriving DecidableEq, Repr

/-- The result of `constructL1ToL2Txn`: target contract (modelled by its
address), method name, and argument list. -/
structure BridgeTransactionDetails where
  contract : String
  method : String
  args : List TxArg
deriving DecidableEq, Repr

/-- The `ScrollWethBridge` instance state read by `constructL1ToL2Txn`: the
atomic depositor contract, set in the constructor from
`CONTRACT_ADDRESSES[hubChainId].atomicDepositor`. -/
structure ScrollWethBridge where
  atomicDepositor : String
deriving DecidableEq, Repr

/-- The protected class field `l2Gas = 20000`; it is never reassigned, so it
is the same constant for every instance. -/
def ScrollWethBridge.l2Gas (_ : ScrollWethBridge) : ℤ := 20000

/-- `constructL1ToL2Txn(toAddress, l1Token, l2Token, amount)`: resolves to a
call of `bridgeWethToScroll` on the atomic depositor with arguments
`[toAddress, amount, this.l2Gas]`; the two token arguments are unused. -/
def ScrollWethBridge.constructL1ToL2Txn (b : ScrollWethBridge)
    (toAddress _l1Token _l2Token : String) (amount : ℤ) :
    BridgeTransactionDetails :=
  { contract := b.atomicDepositor
    method := "bridgeWethToScroll"
    args := [TxArg.addr toAddress, TxArg.num amount, TxArg.num b.l2Gas] }

/-- C9: for every input, `ScrollWethBridge.constructL1ToL2Txn` resolves to a
transaction on the atomic depositor contract with method
`bridgeWethToScroll` and arguments `[toAddress, amount, 20000]`, and the
`l1Token`/`l2Token` arguments have no effect on the result. -/
theorem constructL1ToL2Txn_spec (b : ScrollWethBridge)
    (toAddress l1Token l2Token l1Token2 l2Token2 : String) (amount : ℤ) :
    b.constructL1ToL2Txn toAddress l1Token l2Token amount =
      { contract := b.atomicDepositor
        method := "bridgeWethToScroll"
        args := [TxArg.addr toAddress, TxArg.num amount, TxArg.num 20000] }
    ∧ b.constructL1ToL2Txn toAddress l1Token l2Token amount
        = b.constructL1ToL2Txn toAddress l1Token2 l2Token2 amount :=
  ⟨rfl, rfl⟩

/-! ### RelayerConfig (same source file, second part) -/

/-- The environment variables `RelayerConfig` destructures from
`process.env`; each is a string or `undefined`. -/
structure ProcessEnv where
  MAX_RELAYER_DEPOSIT_LOOK_BACK : Option String
  REPAYMENT_CHAIN_FOR_TOKEN : Option String
  SEND_RELAYS : Option String
deriving DecidableEq, Repr

/-- The `RelayerConfig` fields set by its constructor (beyond
`CommonConfig`). -/
structure RelayerConfig where
  maxRelayerLookBack : List (Nat × Nat)
  repaymentChainIdForToken : List (String × Nat)
  sendingRelaysEnabled : Bool
deriving DecidableEq, Repr

/-- The `RelayerConfig` constructor body.  `JSON.parse` is an external
collaborator, passed in as the two parse functions; a JS string is falsy
exactly when it is empty, and `undefined` is falsy, giving the `{}` (empty
map) branch of each ternary.  `SEND_RELAYS === "true"` is a strict equality
against the exact string. -/
def RelayerConfig.ofEnv (parseLookBack : String → List (Nat × Nat))
    (parseRepayment : String → List (String × Nat)) (env : ProcessEnv) :
    RelayerConfig :=
  { maxRelayerLookBack :=
      match env.MAX_RELAYER_DEPOSIT_LOOK_BACK with
      | some s => if s == "" then [] else parseLookBack s
      | none => []
    repaymentChainIdForToken :=
      match env.REPAYMENT_CHAIN_FOR_TOKEN with
      | some s => if s == "" then [] else parseRepayment s
      | none => []
    sendingRelaysEnabled := env.SEND_RELAYS == some "true" }

/-- C10: for every environment, `sendingRelaysEnabled` is true iff
`SEND_RELAYS` equals the exact string "true", and the two map fields are the
empty map whenever their environment variables are absent or empty. -/
theorem relayerConfig_env_rules (parseLookBack : String → List (Nat × Nat))
    (parseRepayment : String → List (String × Nat)) (env : ProcessEnv) :
    ((RelayerConfig.ofEnv parseLookBack parseRepayment env).sendingRelaysEnabled
        = true ↔ env.SEND_RELAYS = some "true")
    ∧ ((env.MAX_RELAYER_DEPOSIT_LOOK_BACK = none
          ∨ env.MAX_RELAYER_DEPOSIT_LOOK_BACK = some "") →
        (RelayerConfig.ofEnv parseLookBack parseRepayment env).maxRelayerLookBack
          = [])
    ∧ ((env.REPAYMENT_CHAIN_FOR_TOKEN = none
          ∨ env.REPAYMENT_CHAIN_FOR_TOKEN = some "") →
        (RelayerConfig.ofEnv parseLookBack
          parseRepayment env).repaymentChainIdForToken = []) := by
  refine ⟨?_, ?_, ?_⟩
  · simp [RelayerConfig.ofEnv]
  · rintro (h | h) <;> simp [RelayerConfig.ofEnv, h]
  · rintro (h | h) <;> simp [RelayerConfig.ofEnv, h]

/-! ### Witnesses: the claim theorems applied at the concrete fixtures -/

/-- Witness for C3 at `cfgW`/`envW` (a run whose retry rounds never
converge): the last round's invalid map reaches all five downstream calls of
iteration 0. -/
theorem finalInvalidStartBlocks_surfaced_downstream_witness :
    Action.validatePendingRootBundle finalW.clients cfgW.sendingDisputesEnabled
        finalW.invalidStartBlocks ∈ iterationActions cfgW envW 0
    ∧ Action.proposeRootBundle finalW.clients cfgW.rootBundleExecutionThreshold
        cfgW.sendingProposalsEnabled finalW.invalidStartBlocks
        ∈ iterationActions cfgW envW 0
    ∧ Action.executePoolRebalanceLeaves finalW.clients 0
        cfgW.sendingExecutionsEnabled finalW.invalidStartBlocks
        ∈ iterationActions cfgW envW 0
    ∧ Action.executeSlowRelayLeaves finalW.clients 0
        cfgW.sendingExecutionsEnabled finalW.invalidStartBlocks
        ∈ iterationActions cfgW envW 0
    ∧ Action.executeRelayerRefundLeaves finalW.clients 0
        cfgW.sendingExecutionsEnabled finalW.invalidStartBlocks
        ∈ iterationActions cfgW envW 0 :=
  finalInvalidStartBlocks_surfaced_downstream cfgW envW 0 finalW (by decide)
    (by decide) rfl rfl rfl

/-- Witness for C4: the full trace of iteration 0 at `cfgW`/`envW`, fully
evaluated (three widening rounds 4, 8, 16, then the downstream calls in the
fixed order). -/
theorem iterationActions_fixed_order_witness :
    iterationActions cfgW envW 0 =
      [Action.updateClients,
       Action.resolveRound 4 { fromBlocks := [(1, 0)], toBlocks := [(1, 100)] }
         7 [(1, 100)],
       Action.resolveRound 8 { fromBlocks := [(1, 0)], toBlocks := [(1, 100)] }
         7 [(1, 100)],
       Action.resolveRound 16 { fromBlocks := [(1, 0)], toBlocks := [(1, 100)] }
         7 [(1, 100)],
       Action.validatePendingRootBundle 7 true [(1, 100)],
       Action.proposeRootBundle 7 1 true [(1, 100)],
       Action.executePoolRebalanceLeaves 7 0 true [(1, 100)],
       Action.executeSlowRelayLeaves 7 0 true [(1, 100)],
       Action.executeRelayerRefundLeaves 7 0 true [(1, 100)],
       Action.executeTransactionQueue,
       Action.checkEndPollingLoop] :=
  (iterationActions_fixed_order cfgW envW 0 rfl rfl rfl).trans (by decide)

/-- Witness for C5: iterations 0 and 1 at `cfgW`/`envW` use the allocator
nonces `[0, 0, 0]` and never share one. -/
theorem balanceAllocator_fresh_per_iteration_witness :
    allocatorsUsed (iterationActions cfgW envW 0) = [0, 0, 0]
    ∧ (0 : Nat) ∉ allocatorsUsed (iterationActions cfgW envW 1) :=
  ⟨(balanceAllocator_fresh_per_iteration cfgW envW 0 rfl).1,
   (balanceAllocator_fresh_per_iteration cfgW envW 0 rfl).2 cfgW envW 1
     (by decide) 0 (by decide)⟩

/-- Witness for C6: with every collaborator call of `envErr` throwing error
5, the first call of iteration 0 aborts the loop and `runDataworker`
rethrows after disconnecting redis. -/
theorem runDataworker_propagates_error_witness :
    runDataworker cfgW envsErr true 1
        = ([Action.updateClients, Action.redisDisconnect], some 5)
    ∧ runLoop cfgW envsErr 1 0 = ([Action.updateClients], some 5) :=
  ⟨(runDataworker_propagates_error cfgW envsErr true 1 0
      [Action.updateClients] 5).1 (by decide),
   (runDataworker_propagates_error cfgW envsErr true 0 0
      [Action.updateClients] 5).2 (by decide)⟩

/-- Witness for C7: the error-free iteration 0 at `cfgW`/`envW` runs its
full call sequence to completion. -/
theorem pollingLoop_checked_once_per_iteration_witness :
    (runIteration cfgW envW 0).1 = iterationActions cfgW envW 0 :=
  (pollingLoop_checked_once_per_iteration cfgW envW 0).2.2 (by decide)

/-- Witness for C8: the first round at `envW` recomputes windows, clients and
the invalid map from that round's own lookback count. -/
theorem invalidStartBlocks_recomputed_each_round_witness :
    rW.windows = envW.getEventSearchConfigs rW.lookbackCount
    ∧ rW.clients = envW.constructSpokePoolClients rW.windows
    ∧ rW.invalidStartBlocks = envW.getLatestInvalidBundleStartBlocks rW.clients :=
  (invalidStartBlocks_recomputed_each_round envW 2 4 2).2.1 rW (by decide)

/-- Fixture parse functions and environment for the `RelayerConfig`
witness: the lookback variable is absent, the repayment variable empty, and
`SEND_RELAYS` is exactly "true". -/
def parseLookBackW : String → List (Nat × Nat) := fun _ => [(1, 2)]

def parseRepaymentW : String → List (String × Nat) := fun _ => [("t", 1)]

def processEnvW : ProcessEnv :=
  { MAX_RELAYER_DEPOSIT_LOOK_BACK := none
    REPAYMENT_CHAIN_FOR_TOKEN := some ""
    SEND_RELAYS := some "true" }

/-- Witness for C10 at `processEnvW`. -/
theorem relayerConfig_env_rules_witness :
    ((RelayerConfig.ofEnv parseLookBackW parseRepaymentW
        processEnvW).sendingRelaysEnabled = true
      ↔ processEnvW.SEND_RELAYS = some "true")
    ∧ (RelayerConfig.ofEnv parseLookBackW parseRepaymentW
        processEnvW).maxRelayerLookBack = []
    ∧ (RelayerConfig.ofEnv parseLookBackW parseRepaymentW
        processEnvW).repaymentChainIdForToken = [] :=
  ⟨(relayerConfig_env_rules parseLookBackW parseRepaymentW processEnvW).1,
   (relayerConfig_env_rules parseLookBackW parseRepaymentW processEnvW).2.1
     (Or.inl rfl),
   (relayerConfig_env_rules parseLookBackW parseRepaymentW processEnvW).2.2
     (Or.inr rfl)⟩

end Relayer
